import Mathlib

/-!
Verification of the hacker-news Go service (package api / internal packages)
against its natural-language specification.

Go strings are byte slices; all string-level behaviour relevant here
(strings.Split, strings.TrimSpace, strings.HasPrefix, strings.IndexAny and
Go slicing s[i:]) is byte-exact, so strings are embedded as lists of bytes
(`GoStr`).  UTF-8 decoding follows Go's unicode/utf8 package, because
TrimSpace and IndexAny iterate over runes while slicing counts bytes.
-/

/-- A Go string: a list of byte values. -/
abbrev GoStr := List Nat

/-- Byte list of an ASCII Lean string, for writing concrete test inputs. -/
def asciiBytes (s : String) : GoStr := s.data.map Char.toNat

/-- Go strings.Split(s, newline): splits on the byte 0x0A; a trailing
separator yields a trailing empty field, and the empty string yields one
empty field, exactly as in Go. -/
def splitOnNewline : GoStr → List GoStr
  | [] => [[]]
  | b :: rest =>
    if b = 10 then [] :: splitOnNewline rest
    else
      match splitOnNewline rest with
      | [] => [[b]]
      | t :: ts => (b :: t) :: ts

/-- Go utf8.DecodeRune on the front of a byte list: returns (rune, size).
Invalid encodings give (0xFFFD, 1); the empty string gives (0xFFFD, 0). -/
def decodeRuneFront : GoStr → Nat × Nat
  | [] => (0xFFFD, 0)
  | b0 :: rest =>
    if b0 < 0x80 then (b0, 1)
    else if b0 < 0xC2 then (0xFFFD, 1)
    else if b0 < 0xE0 then
      match rest with
      | b1 :: _ =>
        if 0x80 ≤ b1 ∧ b1 ≤ 0xBF then ((b0 - 0xC0) * 64 + (b1 - 0x80), 2)
        else (0xFFFD, 1)
      | [] => (0xFFFD, 1)
    else if b0 < 0xF0 then
      match rest with
      | b1 :: b2 :: _ =>
        let lo1 := if b0 = 0xE0 then 0xA0 else 0x80
        let hi1 := if b0 = 0xED then 0x9F else 0xBF
        if lo1 ≤ b1 ∧ b1 ≤ hi1 ∧ 0x80 ≤ b2 ∧ b2 ≤ 0xBF then
          ((b0 - 0xE0) * 4096 + (b1 - 0x80) * 64 + (b2 - 0x80), 3)
        else (0xFFFD, 1)
      | _ => (0xFFFD, 1)
    else if b0 < 0xF5 then
      match rest with
      | b1 :: b2 :: b3 :: _ =>
        let lo1 := if b0 = 0xF0 then 0x90 else 0x80
        let hi1 := if b0 = 0xF4 then 0x8F else 0xBF
        if lo1 ≤ b1 ∧ b1 ≤ hi1 ∧ 0x80 ≤ b2 ∧ b2 ≤ 0xBF ∧ 0x80 ≤ b3 ∧ b3 ≤ 0xBF then
          ((b0 - 0xF0) * 262144 + (b1 - 0x80) * 4096 + (b2 - 0x80) * 64 + (b3 - 0x80), 4)
        else (0xFFFD, 1)
      | _ => (0xFFFD, 1)
    else (0xFFFD, 1)

/-- Go utf8.RuneStart: a byte that can begin a UTF-8 encoded rune. -/
def runeStartByte (b : Nat) : Bool := b < 0x80 || 0xC0 ≤ b

/-- Helper for decodeRuneLast: scan indices j, j-1, ..., stopping at lim,
for the highest index whose byte is a rune start (Go DecodeLastRune's
backwards scan). -/
def findRuneStartBack (s : GoStr) (lim : Nat) : Nat → Option Nat
  | 0 => if lim = 0 ∧ runeStartByte (s.getD 0 0) then some 0 else none
  | j + 1 =>
    if j + 1 < lim then none
    else if runeStartByte (s.getD (j + 1) 0) then some (j + 1)
    else findRuneStartBack s lim j

/-- Go utf8.DecodeLastRune: decode the final rune of a byte list.  All the
failure paths of the Go algorithm (no rune start within the last four
bytes, or a start whose decoded width does not reach the end) collapse to
(0xFFFD, 1), which is what the Go code returns in those cases. -/
def decodeRuneLast (s : GoStr) : Nat × Nat :=
  match s.length with
  | 0 => (0xFFFD, 0)
  | e + 1 =>
    let last := s.getD e 0
    if last < 0x80 then (last, 1)
    else
      let lim := (e + 1) - 4
      match e with
      | 0 => (0xFFFD, 1)
      | e₁ + 1 =>
        match findRuneStartBack s lim e₁ with
        | none => (0xFFFD, 1)
        | some start =>
          let (r, n) := decodeRuneFront (s.drop start)
          if start + n = e + 1 then (r, n) else (0xFFFD, 1)

/-- Go unicode.IsSpace on a rune (the White_Space property). -/
def isSpaceRune (r : Nat) : Bool :=
  r = 9 || r = 10 || r = 11 || r = 12 || r = 13 || r = 32 ||
  r = 0x85 || r = 0xA0 || r = 0x1680 ||
  (0x2000 ≤ r && r ≤ 0x200A) ||
  r = 0x2028 || r = 0x2029 || r = 0x202F || r = 0x205F || r = 0x3000

/-- Fuelled left-trim loop; every step drops at least one byte, so
List.length fuel suffices. -/
def trimLeftSpaceFuel : Nat → GoStr → GoStr
  | 0, s => s
  | fuel + 1, s =>
    match s with
    | [] => []
    | _ :: _ =>
      let rn := decodeRuneFront s
      if isSpaceRune rn.1 then trimLeftSpaceFuel fuel (s.drop rn.2) else s

/-- Fuelled right-trim loop (Go TrimRightFunc via DecodeLastRune). -/
def trimRightSpaceFuel : Nat → GoStr → GoStr
  | 0, s => s
  | fuel + 1, s =>
    match s with
    | [] => []
    | _ :: _ =>
      let rn := decodeRuneLast s
      if isSpaceRune rn.1 then trimRightSpaceFuel fuel (s.take (s.length - rn.2)) else s

/-- Go strings.TrimSpace: trim Unicode white space from both ends
(semantics of TrimFunc(s, unicode.IsSpace)). -/
def trimSpace (s : GoStr) : GoStr :=
  trimRightSpaceFuel s.length (trimLeftSpaceFuel s.length s)

/-- Fuelled scan for Go strings.IndexAny(s, colon-chars): iterate the
string rune by rune (invalid bytes decode as U+FFFD of width one, which is
not one of the sought characters) and return the byte index of the first
ASCII colon (U+003A) or full-width colon (U+FF1A). -/
def indexAnyColonFuel : Nat → GoStr → Nat → Option Nat
  | 0, _, _ => none
  | fuel + 1, s, i =>
    match s with
    | [] => none
    | _ :: _ =>
      let rn := decodeRuneFront s
      if rn.1 = 0x3A ∨ rn.1 = 0xFF1A then some i
      else indexAnyColonFuel fuel (s.drop rn.2) (i + rn.2)

/-- Byte index of the first ASCII or full-width colon rune, as computed by
strings.IndexAny(conversation, both-colons) in processHackerNews. -/
def indexAnyColon (s : GoStr) : Option Nat := indexAnyColonFuel s.length s 0

/-- Speaker of a podcast turn ("男" male / "女" female). -/
inductive Speaker
  | male
  | female
deriving DecidableEq, Repr

/-- UTF-8 bytes of the male label followed by an ASCII colon. -/
def maleLabelAsciiColon : GoStr := [0xE7, 0x94, 0xB7, 0x3A]

/-- UTF-8 bytes of the male label followed by a full-width colon. -/
def maleLabelFwColon : GoStr := [0xE7, 0x94, 0xB7, 0xEF, 0xBC, 0x9A]

/-- UTF-8 bytes of the full-width colon U+FF1A. -/
def fwColonBytes : GoStr := [0xEF, 0xBC, 0x9A]

/-- Speaker selection of processHackerNews: male exactly when the line
has the male label plus a colon (either form) as a byte-level Go
strings.HasPrefix; otherwise the default female. -/
def lineSpeaker (conversation : GoStr) : Speaker :=
  if maleLabelAsciiColon.isPrefixOf conversation ∨ maleLabelFwColon.isPrefixOf conversation
  then Speaker.male else Speaker.female

/-- Text passed to speech synthesis for one line: if strings.IndexAny
finds a colon at byte index idx, the Go code takes conversation[idx+1:]
(a byte slice) and trims it; otherwise the line is passed through
unchanged. -/
def lineText (conversation : GoStr) : GoStr :=
  match indexAnyColon conversation with
  | some idx => trimSpace (conversation.drop (idx + 1))
  | none => conversation

/-- Turn splitting of processHackerNews: split the podcast script on
newlines, drop lines whose trimmed text is empty, and pair each surviving
line's speaker with its synthesis text. -/
def splitTurns (podcastContent : GoStr) : List (Speaker × GoStr) :=
  (splitOnNewline podcastContent).filterMap fun conversation =>
    if trimSpace conversation = [] then none
    else some (lineSpeaker conversation, lineText conversation)

/-!
Pipeline model (package api, processHackerNews in the server file).

The per-date persisted state consists of exactly the two object keys a run
touches: the content record under content:env:hacker-news:date and the
merged audio object under audio/date-complete.mp3.  JSON marshalling of
the content struct (strings and string slices only) cannot fail in Go and
unmarshalling of a record the run itself stored succeeds, so
serialisation is modelled as the identity on records; store values are
kept as parsed records.  A stored record marshals to a non-empty JSON
object, so the size-positive test inside MinioClient.ObjectExists is true
exactly when the content object is present.
-/

/-- The JSON content record persisted per date (fields intro, podcast,
blog, audioUrl, audioFiles of the anonymous struct in processHackerNews). -/
structure ContentRecord where
  intro : GoStr
  podcast : GoStr
  blog : GoStr
  audioURL : GoStr
  audioFiles : List GoStr
deriving DecidableEq, Repr

/-- The per-date slice of the object store: the content record key and the
merged-audio key (the only keys a run reads or writes). -/
structure Store where
  content : Option ContentRecord
  mergedAudioObj : Option GoStr
deriving DecidableEq, Repr

/-- models.Story as listed by GetTopStories. -/
structure Story where
  id : GoStr
  title : GoStr
  url : GoStr
  hnURL : GoStr
deriving DecidableEq, Repr

/-- Outcomes of the collaborator calls a run can make, fixed up front:
each field is the (result of the) corresponding external call.  Store
reads are derived from the Store value itself, with Boolean transport
error flags; uploads return a locator string on success. -/
structure Collab where
  existsErr : Bool
  downloadErr : Bool
  topStories : Except Unit (List Story)
  storyContent : Story → Except Unit GoStr
  genStoryText : GoStr → Except Unit GoStr
  genPodcastText : List GoStr → Except Unit GoStr
  genBlogText : List GoStr → Except Unit GoStr
  genIntroText : GoStr → Except Unit GoStr
  putContentA : Except Unit GoStr
  putContentB : Except Unit GoStr
  synthSpeech : GoStr → Speaker → Except Unit GoStr
  mergeRun : List GoStr → Except Unit GoStr
  putAudioRes : Except Unit GoStr

/-- Observable collaborator calls of one run, in program order. -/
inductive Ev
  | checkExists
  | download
  | listItems
  | fetchContent (s : Story)
  | genStory
  | pacingSleep
  | genPodcast
  | genBlog
  | genIntro
  | putContent
  | tts (sp : Speaker) (text : GoStr)
  | mergeSegs (segs : List GoStr)
  | putAudioObj
deriving DecidableEq, Repr

/-- Per-item loop of the Generate stage (fetch content, summarize, skip
on either failure, pacing sleep after a successful summary), returning
the surviving summaries in fetch order together with the emitted events. -/
def collectSummaries (c : Collab) : List Story → List GoStr × List Ev
  | [] => ([], [])
  | s :: rest =>
    match c.storyContent s with
    | Except.error _ =>
      let r := collectSummaries c rest
      (r.1, Ev.fetchContent s :: r.2)
    | Except.ok ct =>
      match c.genStoryText ct with
      | Except.error _ =>
        let r := collectSummaries c rest
        (r.1, Ev.fetchContent s :: Ev.genStory :: r.2)
      | Except.ok t =>
        let r := collectSummaries c rest
        (t :: r.1, Ev.fetchContent s :: Ev.genStory :: Ev.pacingSleep :: r.2)

/-- One item's surviving summary, if any: the content fetch and the
summarization must both succeed. -/
def summarizeOne (c : Collab) (s : Story) : Option GoStr :=
  match c.storyContent s with
  | Except.error _ => none
  | Except.ok ct =>
    match c.genStoryText ct with
    | Except.error _ => none
    | Except.ok t => some t

/-- Per-turn synthesis loop of the Synthesize stage: a failed turn is
skipped, surviving audio segments keep turn order. -/
def synthTurns (c : Collab) : List (Speaker × GoStr) → List GoStr × List Ev
  | [] => ([], [])
  | (sp, tx) :: rest =>
    match c.synthSpeech tx sp with
    | Except.error _ =>
      let r := synthTurns c rest
      (r.1, Ev.tts sp tx :: r.2)
    | Except.ok a =>
      let r := synthTurns c rest
      (a :: r.1, Ev.tts sp tx :: r.2)

/-- Merge-and-upload block of the Synthesize stage: when at least one
segment survived, merge them and upload the result; only on upload
success is the store's audio object written and the record's audioUrl
set to the returned locator.  Merge or upload failure is logged and
leaves both unchanged. -/
def mergeAndPublish (c : Collab) (segs : List GoStr) (cr : ContentRecord) (st : Store) :
    Store × ContentRecord × List Ev :=
  if segs = [] then (st, cr, [])
  else
    match c.mergeRun segs with
    | Except.error _ => (st, cr, [Ev.mergeSegs segs])
    | Except.ok merged =>
      match c.putAudioRes with
      | Except.error _ => (st, cr, [Ev.mergeSegs segs, Ev.putAudioObj])
      | Except.ok loc =>
        (⟨st.content, some merged⟩,
         ⟨cr.intro, cr.podcast, cr.blog, loc, cr.audioFiles⟩,
         [Ev.mergeSegs segs, Ev.putAudioObj])

/-- Synthesize stage of processHackerNews (steps after the content record
is in hand): split the script into turns, synthesize each (skipping
failures), run the merge-and-upload block, synthesize the intro
narration (result discarded), then re-serialize the full record and
upload it.  Returns the new store, the events, and the record that was
serialized for the final write. -/
def synthesizeStage (c : Collab) (cr : ContentRecord) (st : Store) :
    Store × List Ev × ContentRecord :=
  let sr := synthTurns c (splitTurns cr.podcast)
  let afterMerge := mergeAndPublish c sr.1 cr st
  let st1 := afterMerge.1
  let cr1 := afterMerge.2.1
  let trMid := sr.2 ++ afterMerge.2.2 ++ [Ev.tts Speaker.male cr.intro]
  match c.putContentB with
  | Except.error _ => (st1, trMid ++ [Ev.putContent], cr1)
  | Except.ok _ => (⟨some cr1, st1.mergedAudioObj⟩, trMid ++ [Ev.putContent], cr1)

/-- Generate branch of processHackerNews (content absent or force):
list items, summarize them with skip-on-failure, generate podcast, blog
and intro (terminating the run on any failure), assemble and upload the
content record, then run the Synthesize stage. -/
def generateBranch (c : Collab) (st : Store) : Store × List Ev :=
  match c.topStories with
  | Except.error _ => (st, [Ev.checkExists, Ev.listItems])
  | Except.ok stories =>
    let col := collectSummaries c stories
    let texts := col.1
    let trHead := Ev.checkExists :: Ev.listItems :: col.2
    if texts = [] then (st, trHead)
    else
      match c.genPodcastText texts with
      | Except.error _ => (st, trHead ++ [Ev.genPodcast])
      | Except.ok pc =>
        match c.genBlogText texts with
        | Except.error _ => (st, trHead ++ [Ev.genPodcast, Ev.genBlog])
        | Except.ok bc =>
          match c.genIntroText pc with
          | Except.error _ => (st, trHead ++ [Ev.genPodcast, Ev.genBlog, Ev.genIntro])
          | Except.ok ic =>
            let cr : ContentRecord := ⟨ic, pc, bc, [], []⟩
            match c.putContentA with
            | Except.error _ =>
              (st, trHead ++ [Ev.genPodcast, Ev.genBlog, Ev.genIntro, Ev.putContent])
            | Except.ok _ =>
              let st1 : Store := ⟨some cr, st.mergedAudioObj⟩
              let syn := synthesizeStage c cr st1
              (syn.1,
               trHead ++ [Ev.genPodcast, Ev.genBlog, Ev.genIntro, Ev.putContent] ++ syn.2.1)

/-- processHackerNews(date, maxItems, force, forceAudio): the Decide step
checks existence (a transport error is logged and counted as absent);
if absent or force it generates, otherwise it downloads the record,
terminates when the audio locator is non-empty and audio is not forced,
and otherwise re-synthesizes audio for the stored script. -/
def processHackerNews (c : Collab) (st : Store) (force forceAudio : Bool) :
    Store × List Ev :=
  let contentExists := !c.existsErr && st.content.isSome
  if !contentExists || force then generateBranch c st
  else
    match st.content with
    | none => (st, [Ev.checkExists, Ev.download])
    | some rec =>
      if c.downloadErr then (st, [Ev.checkExists, Ev.download])
      else if rec.audioURL ≠ [] ∧ forceAudio = false then (st, [Ev.checkExists, Ev.download])
      else
        let syn := synthesizeStage c rec st
        (syn.1, Ev.checkExists :: Ev.download :: syn.2.1)

/-!
Audio merge (mergeAudioBytes in the server file).
-/

/-- Merge failure (temp file handling or the external concatenation). -/
inductive MergeErr
  | concatFailed
deriving DecidableEq, Repr

/-- Manifest built by the mergeAudioBytes loop: the i-th input segment is
written to seg-i and one manifest line naming it is appended, so the
manifest pairs each index with its segment in input order. -/
def buildManifest : List GoStr → List (Nat × GoStr) :=
  fun segs => go 0 segs
where
  go : Nat → List GoStr → List (Nat × GoStr)
    | _, [] => []
    | i, seg :: rest => (i, seg) :: go (i + 1) rest

/-- Modelled from the spec: the external ffmpeg concat invocation (the
only piece of the merge not in this repository).  Per the Audio Merge
contract it concatenates the manifest files losslessly in listed order
and fails when the manifest supplies no input stream (zero entries). -/
def ffmpegConcat (files : List GoStr) : Except MergeErr GoStr :=
  match files with
  | [] => Except.error MergeErr.concatFailed
  | _ :: _ => Except.ok files.flatten

/-- mergeAudioBytes: write every segment in input order, list them in the
manifest in that exact order, run the external concatenation over the
manifest and read back the result. -/
def mergeAudioBytes (audioSegments : List GoStr) : Except MergeErr GoStr :=
  ffmpegConcat ((buildManifest audioSegments).map Prod.snd)

/-!
Retry wrapper (generateText in internal/ai/client.go).
-/

/-- Result of one CreateChatCompletion attempt: a transport or API error,
a response with an empty Choices slice, or a response with a first choice
carrying the given content. -/
inductive AttemptOutcome
  | failure
  | noChoices
  | success (content : GoStr)

/-- Observable behaviour of generateText: each attempt runs under its own
2-minute (120 second) context timeout; between attempts the code sleeps. -/
inductive GEv
  | attempt (timeoutSecs : Nat)
  | backoffSleep (secs : Nat)
deriving DecidableEq, Repr

/-- The generateText retry loop, structurally recursing on the number of
remaining attempts (maxRetries - i): attempt i (0-based) is issued; on a
usable response its content is returned; on an error or an empty Choices
slice, if attempts remain the code sleeps (i+1)*2 seconds and retries,
otherwise the terminal error is returned. -/
def genTextLoop (oracle : Nat → AttemptOutcome) (i : Nat) : Nat → Except Unit GoStr × List GEv
  | 0 => (Except.error (), [])
  | k + 1 =>
    match oracle i with
    | AttemptOutcome.success content => (Except.ok content, [GEv.attempt 120])
    | AttemptOutcome.failure =>
      if k = 0 then (Except.error (), [GEv.attempt 120])
      else
        let r := genTextLoop oracle (i + 1) k
        (r.1, GEv.attempt 120 :: GEv.backoffSleep ((i + 1) * 2) :: r.2)
    | AttemptOutcome.noChoices =>
      if k = 0 then (Except.error (), [GEv.attempt 120])
      else
        let r := genTextLoop oracle (i + 1) k
        (r.1, GEv.attempt 120 :: GEv.backoffSleep ((i + 1) * 2) :: r.2)

/-- generateText: the loop with maxRetries = 3. -/
def generateText (oracle : Nat → AttemptOutcome) : Except Unit GoStr × List GEv :=
  genTextLoop oracle 0 3

/-- Attempt events of a generateText trace. -/
def attemptsOf (tr : List GEv) : List GEv :=
  tr.filter fun e => match e with | GEv.attempt _ => true | _ => false

/-- Backoff delays (seconds) of a generateText trace, in order. -/
def sleepsOf (tr : List GEv) : List Nat :=
  tr.filterMap fun e => match e with | GEv.backoffSleep d => some d | _ => none

/-!
Source fetcher (GetStoryContent / fetchArticle / fetchComments in
internal/crawler/hackernews.go).  The HTTP environment of one call is
modelled as the first failure point it hits, if any.
-/

/-- Environment of one fetchArticle call. -/
inductive ArticleOutcome
  | reqFail
  | doFail
  | badStatus
  | readFail
  | okBody (body : GoStr)
deriving DecidableEq, Repr

/-- fetchArticle: http.NewRequest failure and io.ReadAll failure return
an error; a transport failure of client.Do and a non-200 status are
logged and return empty text with a nil error (the soft paths). -/
def fetchArticle : ArticleOutcome → Except Unit GoStr
  | ArticleOutcome.reqFail => Except.error ()
  | ArticleOutcome.doFail => Except.ok []
  | ArticleOutcome.badStatus => Except.ok []
  | ArticleOutcome.readFail => Except.error ()
  | ArticleOutcome.okBody body => Except.ok body

/-- Environment of one fetchComments call. -/
inductive CommentsOutcome
  | reqFail
  | doFail
  | badStatus
  | readFail
  | parseFail
  | selectFail
  | okBody (body : GoStr)
deriving DecidableEq, Repr

/-- fetchComments: request construction, body read, HTML parsing and
comment-area extraction failures return an error; transport failure and
non-200 status return empty text with a nil error. -/
def fetchComments : CommentsOutcome → Except Unit GoStr
  | CommentsOutcome.reqFail => Except.error ()
  | CommentsOutcome.doFail => Except.ok []
  | CommentsOutcome.badStatus => Except.ok []
  | CommentsOutcome.readFail => Except.error ()
  | CommentsOutcome.parseFail => Except.error ()
  | CommentsOutcome.selectFail => Except.error ()
  | CommentsOutcome.okBody body => Except.ok body

/-- strings.Join with a separator. -/
def joinSep (sep : GoStr) : List GoStr → GoStr
  | [] => []
  | [x] => x
  | x :: xs => x ++ sep ++ joinSep sep xs

/-- Size cap of GetStoryContent: truncate to maxTokens*4 bytes. -/
def capLen (maxTokens : Nat) (s : GoStr) : GoStr :=
  if s.length > maxTokens * 4 then s.take (maxTokens * 4) else s

/-- GetStoryContent: fetch article and comments (concurrently in Go; each
goroutine sends its error, if any, before its result, so the error check
after the join observes any failure of either part).  If either part
errored the call returns that error; otherwise the non-empty parts are
tagged, size-capped and joined. -/
def getStoryContent (story : Story) (maxTokens : Nat)
    (ao : ArticleOutcome) (co : CommentsOutcome) : Except Unit GoStr :=
  match fetchArticle ao, fetchComments co with
  | Except.error _, _ => Except.error ()
  | _, Except.error _ => Except.error ()
  | Except.ok article, Except.ok comments =>
    let part1 : List GoStr :=
      if story.title ≠ [] then
        [asciiBytes "<title>\n" ++ story.title ++ asciiBytes "\n</title>"]
      else []
    let part2 : List GoStr :=
      if article ≠ [] then
        [asciiBytes "<article>\n" ++ capLen maxTokens article ++ asciiBytes "\n</article>"]
      else []
    let part3 : List GoStr :=
      if comments ≠ [] then
        [asciiBytes "<comments>\n" ++ capLen maxTokens comments ++ asciiBytes "\n</comments>"]
      else []
    Except.ok (joinSep (asciiBytes "\n\n---\n\n") (part1 ++ part2 ++ part3))

/-!
HTTP entry point (processHandler in the server file).
-/

/-- The process-wide server flags shared by all handler invocations. -/
structure ServerState where
  isProcessing : Bool
deriving DecidableEq, Repr

/-- processHandler for a request that binds correctly: it sets the global
isProcessing flag and fires the run in a goroutine; it returns whether a
run was started.  No field of the prior state is consulted: there is no
admission check against isProcessing and no per-date lock anywhere on the
path to processHackerNews. -/
def processHandler (s : ServerState) (validRequest : Bool) : ServerState × Bool :=
  if validRequest then (⟨true⟩, true) else (s, false)

example : splitOnNewline (asciiBytes "a") = [asciiBytes "a"] := by decide
example : trimSpace (asciiBytes "  hi ") = asciiBytes "hi" := by decide
example : trimSpace [0xBC, 0x9A, 0x77] = [0xBC, 0x9A, 0x77] := by decide
example : indexAnyColon ([0xE5, 0xA5, 0xB3] ++ fwColonBytes ++ asciiBytes "w") = some 3 := by decide
example : lineText (maleLabelAsciiColon ++ asciiBytes " hello") = asciiBytes "hello" := by decide

/-- The spec example script: male label, ASCII colon, "hello", newline,
female label, full-width colon, "world", two trailing newlines. -/
def specExampleScript : GoStr :=
  maleLabelAsciiColon ++ asciiBytes " hello" ++ [10] ++
  [0xE5, 0xA5, 0xB3] ++ fwColonBytes ++ asciiBytes "world" ++ [10] ++ [10]

/-- Five concrete fetched items for the partial-failure scenario. -/
def c4Stories : List Story :=
  [⟨[1], [], [], []⟩, ⟨[2], [], [], []⟩, ⟨[3], [], [], []⟩, ⟨[4], [], [], []⟩, ⟨[5], [], [], []⟩]

/-- Collaborator where the content fetch fails for items 2 and 4 and
summarization echoes the content. -/
def c4Collab : Collab :=
  ⟨false, false, Except.ok c4Stories,
   fun s => if s.id = [2] ∨ s.id = [4] then Except.error () else Except.ok s.id,
   fun ct => Except.ok ct,
   fun _ => Except.error (), fun _ => Except.error (), fun _ => Except.error (),
   Except.error (), Except.error (), fun _ _ => Except.error (),
   fun _ => Except.error (), Except.error ()⟩

/-- Collaborator where every content fetch fails, so zero summaries
survive. -/
def c4FailCollab : Collab :=
  ⟨false, false, Except.ok c4Stories,
   fun _ => Except.error (), fun ct => Except.ok ct,
   fun _ => Except.error (), fun _ => Except.error (), fun _ => Except.error (),
   Except.error (), Except.error (), fun _ _ => Except.error (),
   fun _ => Except.error (), Except.error ()⟩

/-- Collaborator for the C6 witness: one item fetches and summarizes
successfully, then podcast generation fails. -/
def c6Collab : Collab :=
  ⟨false, false, Except.ok [⟨[1], [], [], []⟩],
   fun _ => Except.ok [], fun _ => Except.ok [7],
   fun _ => Except.error (), fun _ => Except.error (), fun _ => Except.error (),
   Except.error (), Except.error (), fun _ _ => Except.error (),
   fun _ => Except.error (), Except.error ()⟩

/-- Collaborator for the C7 witness: every synthesis call fails (so every
audio segment fails) and the final content upload succeeds. -/
def c7Collab : Collab :=
  ⟨false, false, Except.error (), fun _ => Except.error (), fun _ => Except.error (),
   fun _ => Except.error (), fun _ => Except.error (), fun _ => Except.error (),
   Except.error (), Except.ok [5], fun _ _ => Except.error (),
   fun _ => Except.error (), Except.error ()⟩

/-- The record entering the Synthesize stage in the C7 witness. -/
def c7Rec : ContentRecord := ⟨[1], [2], [3], [], []⟩

/-- Collaborator observed by the first of two concurrent runs for the
same date: both existence checks happen before either run writes, so
both observe the artifact absent. -/
def c9CollabA : Collab :=
  ⟨false, false, Except.ok [⟨[1], [], [], []⟩],
   fun _ => Except.error (), fun _ => Except.error (),
   fun _ => Except.error (), fun _ => Except.error (), fun _ => Except.error (),
   Except.error (), Except.error (), fun _ _ => Except.error (),
   fun _ => Except.error (), Except.error ()⟩

/-- Collaborator observed by the second concurrent run. -/
def c9CollabB : Collab :=
  ⟨false, false, Except.ok [⟨[2], [], [], []⟩],
   fun _ => Except.ok [], fun _ => Except.ok [8],
   fun _ => Except.error (), fun _ => Except.error (), fun _ => Except.error (),
   Except.error (), Except.error (), fun _ _ => Except.error (),
   fun _ => Except.error (), Except.error ()⟩

/-!
Helper lemmas.
-/

theorem splitOnNewline_single (l : GoStr) (h : 10 ∉ l) : splitOnNewline l = [l] := by
  induction l with
  | nil => rfl
  | cons b rest ih =>
    have hb : b ≠ 10 := fun hb => h (by simp [hb])
    have hr : 10 ∉ rest := fun hr => h (List.mem_cons_of_mem _ hr)
    simp [splitOnNewline, hb, ih hr]

theorem buildManifest_go_snd (i : Nat) (segs : List GoStr) :
    (buildManifest.go i segs).map Prod.snd = segs := by
  induction segs generalizing i with
  | nil => rfl
  | cons s rest ih => simp [buildManifest.go, ih]

theorem buildManifest_snd (segs : List GoStr) :
    (buildManifest segs).map Prod.snd = segs := buildManifest_go_snd 0 segs

/-!
Claim theorems.
-/

/-- Claim C2, evaluated on the code (status: code_bug).  On the spec's own
example the splitter does produce exactly two turns with speakers
[male, female] and drops the empty lines, and the first text is "hello";
but the second turn's text is NOT "world": strings.IndexAny returns the
byte index of the first byte of the full-width colon and the Go code
slices at idx+1, so the colon's two continuation bytes 0xBC 0x9A remain
in front of "world", contradicting the claim's stated texts. -/
theorem claim_C2_eval :
    splitTurns specExampleScript =
      [(Speaker.male, asciiBytes "hello"),
       (Speaker.female, [0xBC, 0x9A] ++ asciiBytes "world")] ∧
    [0xBC, 0x9A] ++ asciiBytes "world" ≠ asciiBytes "world" := by
  constructor
  · decide
  · decide

/-- Claim C10 counterexample: for the line "a", full-width colon, "b"
(non-empty, no male label), the claim predicts that everything up to and
including the colon is removed, leaving "b"; the code instead drops only
the bytes up to idx+1 where idx is the byte index of the colon's first
byte, so the text handed to synthesis is [0xBC, 0x9A, 98], not "b". -/
theorem claim_C10_counterexample :
    splitTurns ([97] ++ fwColonBytes ++ [98]) = [(Speaker.female, [0xBC, 0x9A, 98])] ∧
    indexAnyColon ([97] ++ fwColonBytes ++ [98]) = some 1 ∧
    [0xBC, 0x9A, 98] ≠ trimSpace (([97] ++ fwColonBytes ++ [98]).drop (1 + 3)) := by
  refine ⟨by decide, by decide, by decide⟩

/-- Claim C10 as amended: for a single non-empty script line that does not
begin with the male label, the turn is female; if strings.IndexAny finds
a colon (ASCII or full-width) at byte index idx, everything up to and
including byte idx (the first byte of that colon) is removed and the
remainder trimmed — for an ASCII colon this removes the whole colon, for
a full-width colon its two continuation bytes remain — and if there is no
colon the entire line is synthesized unchanged. -/
theorem claim_C10_line_processing (line : GoStr) (hnl : 10 ∉ line)
    (hne : trimSpace line ≠ [])
    (hm : ¬ (maleLabelAsciiColon.isPrefixOf line ∨ maleLabelFwColon.isPrefixOf line)) :
    splitTurns line = [(Speaker.female, lineText line)] ∧
    (∀ idx, indexAnyColon line = some idx →
      lineText line = trimSpace (line.drop (idx + 1))) ∧
    (indexAnyColon line = none → lineText line = line) := by
  refine ⟨?_, ?_, ?_⟩
  · unfold splitTurns
    rw [splitOnNewline_single line hnl]
    simp only [List.filterMap_cons, List.filterMap_nil]
    rw [if_neg hne]
    unfold lineSpeaker
    rw [if_neg hm]
  · intro idx hidx
    unfold lineText
    rw [hidx]
  · intro hnone
    unfold lineText
    rw [hnone]

/-- Witness for claim C10: the concrete line "x: y" (ASCII colon, not
male-labelled) satisfies the hypotheses and yields the female turn with
text "y". -/
theorem claim_C10_witness :
    10 ∉ asciiBytes "x: y" ∧ trimSpace (asciiBytes "x: y") ≠ [] ∧
    ¬ (maleLabelAsciiColon.isPrefixOf (asciiBytes "x: y") ∨
       maleLabelFwColon.isPrefixOf (asciiBytes "x: y")) ∧
    splitTurns (asciiBytes "x: y") = [(Speaker.female, lineText (asciiBytes "x: y"))] := by
  refine ⟨by decide, by decide, by decide, ?_⟩
  exact (claim_C10_line_processing (asciiBytes "x: y") (by decide) (by decide) (by decide)).1

/-- Claim C3: the merge lists the segments in its manifest in exactly the
input order, the merged output concatenates the segments in that order
(so for [a, b, c] the order is a, b, c), and zero segments fail with a
MergeError rather than producing a buffer. -/
theorem claim_C3_merge_order :
    (∀ segs : List GoStr, (buildManifest segs).map Prod.snd = segs) ∧
    (∀ segs : List GoStr, segs ≠ [] → mergeAudioBytes segs = Except.ok segs.flatten) ∧
    mergeAudioBytes [] = Except.error MergeErr.concatFailed := by
  refine ⟨buildManifest_snd, ?_, rfl⟩
  intro segs hne
  unfold mergeAudioBytes
  rw [buildManifest_snd]
  cases segs with
  | nil => exact absurd rfl hne
  | cons a rest => rfl

/-- Witness for claim C3: three concrete segments merge in order. -/
theorem claim_C3_witness :
    ([1] : GoStr) :: [[2], [3]] ≠ [] ∧
    mergeAudioBytes [[1], [2], [3]] = Except.ok [1, 2, 3] := by
  refine ⟨by decide, ?_⟩
  exact claim_C3_merge_order.2.1 [[1], [2], [3]] (by decide)

theorem collectSummaries_fst (c : Collab) (stories : List Story) :
    (collectSummaries c stories).1 = stories.filterMap (summarizeOne c) := by
  induction stories with
  | nil => rfl
  | cons s rest ih =>
    cases hc : c.storyContent s with
    | error u => simp [collectSummaries, summarizeOne, hc, ih]
    | ok ct =>
      cases hg : c.genStoryText ct with
      | error u => simp [collectSummaries, summarizeOne, hc, hg, ih]
      | ok t => simp [collectSummaries, summarizeOne, hc, hg, ih]

theorem collectSummaries_events (c : Collab) (stories : List Story) :
    ∀ e ∈ (collectSummaries c stories).2,
      (∃ s, e = Ev.fetchContent s) ∨ e = Ev.genStory ∨ e = Ev.pacingSleep := by
  induction stories with
  | nil => intro e he; simp [collectSummaries] at he
  | cons s rest ih =>
    intro e he
    cases hc : c.storyContent s with
    | error u =>
      simp only [collectSummaries, hc, List.mem_cons] at he
      rcases he with h | h
      · exact Or.inl ⟨s, h⟩
      · exact ih e h
    | ok ct =>
      cases hg : c.genStoryText ct with
      | error u =>
        simp only [collectSummaries, hc, hg, List.mem_cons] at he
        rcases he with h | h | h
        · exact Or.inl ⟨s, h⟩
        · exact Or.inr (Or.inl h)
        · exact ih e h
      | ok t =>
        simp only [collectSummaries, hc, hg, List.mem_cons] at he
        rcases he with h | h | h | h
        · exact Or.inl ⟨s, h⟩
        · exact Or.inr (Or.inl h)
        · exact Or.inr (Or.inr h)
        · exact ih e h

theorem processHackerNews_generate (c : Collab) (st : Store) (force fa : Bool)
    (hA : (!c.existsErr && st.content.isSome) = false ∨ force = true) :
    processHackerNews c st force fa = generateBranch c st := by
  rcases hA with h | h
  · simp [processHackerNews, h]
  · simp [processHackerNews, h]

theorem mergeAndPublish_fields (c : Collab) (segs : List GoStr)
    (cr : ContentRecord) (st : Store) :
    (mergeAndPublish c segs cr st).2.1.intro = cr.intro ∧
    (mergeAndPublish c segs cr st).2.1.podcast = cr.podcast ∧
    (mergeAndPublish c segs cr st).2.1.blog = cr.blog ∧
    (mergeAndPublish c segs cr st).2.1.audioFiles = cr.audioFiles := by
  unfold mergeAndPublish
  split
  · simp
  · cases hm : c.mergeRun segs with
    | error u => simp
    | ok merged =>
      cases hp : c.putAudioRes with
      | error u => simp
      | ok loc => simp

/-- Claim C1: with an existing stored artifact whose audio locator is
non-empty, a run with force and forceAudio both false terminates after
the Decide step: the only store interactions are the existence check and
the artifact load, nothing is fetched, generated, synthesized or
written, and the store is left unchanged. -/
theorem claim_C1_skip_when_audio_exists (c : Collab) (st : Store) (rec : ContentRecord)
    (hc : st.content = some rec) (ha : rec.audioURL ≠ []) (he : c.existsErr = false) :
    processHackerNews c st false false = (st, [Ev.checkExists, Ev.download]) ∧
    ∀ e ∈ (processHackerNews c st false false).2, e = Ev.checkExists ∨ e = Ev.download := by
  have h1 : processHackerNews c st false false = (st, [Ev.checkExists, Ev.download]) := by
    cases hd : c.downloadErr with
    | true => simp [processHackerNews, hc, he, hd]
    | false => simp [processHackerNews, hc, he, hd, ha]
  refine ⟨h1, ?_⟩
  rw [h1]
  intro e he'
  simpa using he'

/-- Witness for claim C1: a concrete collaborator and a store holding a
record with a non-empty audio locator. -/
theorem claim_C1_witness :
    (⟨some ⟨[], [], [], [120], []⟩, none⟩ : Store).content = some ⟨[], [], [], [120], []⟩ ∧
    ([120] : GoStr) ≠ [] ∧
    processHackerNews
      ⟨false, false, Except.error (), fun _ => Except.error (), fun _ => Except.error (),
       fun _ => Except.error (), fun _ => Except.error (), fun _ => Except.error (),
       Except.error (), Except.error (), fun _ _ => Except.error (),
       fun _ => Except.error (), Except.error ()⟩
      ⟨some ⟨[], [], [], [120], []⟩, none⟩ false false =
      (⟨some ⟨[], [], [], [120], []⟩, none⟩, [Ev.checkExists, Ev.download]) := by
  refine ⟨rfl, by decide, ?_⟩
  exact (claim_C1_skip_when_audio_exists _ _ ⟨[], [], [], [120], []⟩ rfl (by decide) rfl).1

theorem loopEvents_ne (c : Collab) (stories : List Story) (e : Ev)
    (hfc : ∀ s, e ≠ Ev.fetchContent s) (hgs : e ≠ Ev.genStory) (hps : e ≠ Ev.pacingSleep) :
    e ∉ (collectSummaries c stories).2 := by
  intro h
  rcases collectSummaries_events c stories e h with ⟨s, h1⟩ | h1 | h1
  · exact hfc s h1
  · exact hgs h1
  · exact hps h1

/-- Claim C4: in the Generate stage every item whose content fetch or
summarization fails is skipped and processing continues; the surviving
summaries are exactly the per-item successes in original fetch order
(the loop result equals an order-preserving filterMap over the fetched
items); and if zero summaries survive the run terminates with the store
unchanged, writing nothing and never reaching podcast generation. -/
theorem claim_C4_skip_preserves_order (c : Collab) (st : Store) (force fa : Bool)
    (hA : (!c.existsErr && st.content.isSome) = false ∨ force = true)
    (stories : List Story) (hs : c.topStories = Except.ok stories) :
    (collectSummaries c stories).1 = stories.filterMap (summarizeOne c) ∧
    (stories.filterMap (summarizeOne c) = [] →
      (processHackerNews c st force fa).1 = st ∧
      Ev.putContent ∉ (processHackerNews c st force fa).2 ∧
      Ev.genPodcast ∉ (processHackerNews c st force fa).2) := by
  refine ⟨collectSummaries_fst c stories, ?_⟩
  intro hz
  have htexts : (collectSummaries c stories).1 = [] := by
    rw [collectSummaries_fst c stories]; exact hz
  have hres : generateBranch c st =
      (st, Ev.checkExists :: Ev.listItems :: (collectSummaries c stories).2) := by
    simp [generateBranch, hs, htexts]
  rw [processHackerNews_generate c st force fa hA, hres]
  refine ⟨rfl, ?_, ?_⟩
  · intro h
    simp only [List.mem_cons] at h
    rcases h with h | h | h
    · exact Ev.noConfusion h
    · exact Ev.noConfusion h
    · exact loopEvents_ne c stories Ev.putContent
        (fun s h1 => Ev.noConfusion h1) (fun h1 => Ev.noConfusion h1)
        (fun h1 => Ev.noConfusion h1) h
  · intro h
    simp only [List.mem_cons] at h
    rcases h with h | h | h
    · exact Ev.noConfusion h
    · exact Ev.noConfusion h
    · exact loopEvents_ne c stories Ev.genPodcast
        (fun s h1 => Ev.noConfusion h1) (fun h1 => Ev.noConfusion h1)
        (fun h1 => Ev.noConfusion h1) h

/-- Witness for claim C4: with items 2 and 4 of 5 failing, exactly the
three surviving summaries remain, in fetch order; with all items
failing, the store is untouched. -/
theorem claim_C4_witness :
    (collectSummaries c4Collab c4Stories).1 = [[1], [3], [5]] ∧
    (processHackerNews c4FailCollab ⟨none, none⟩ false false).1 = (⟨none, none⟩ : Store) := by
  constructor
  · exact (claim_C4_skip_preserves_order c4Collab ⟨none, none⟩ false false (Or.inl rfl)
      c4Stories rfl).1.trans (by decide)
  · exact ((claim_C4_skip_preserves_order c4FailCollab ⟨none, none⟩ false false (Or.inl rfl)
      c4Stories rfl).2 (by decide)).1

/-- Claim C6: if, after the summaries are in hand, the podcast, blog or
intro generation does not succeed, the run terminates with the store
unchanged and no content artifact is ever written (all-or-nothing at the
text level). -/
theorem claim_C6_text_failure_terminates (c : Collab) (st : Store) (force fa : Bool)
    (hA : (!c.existsErr && st.content.isSome) = false ∨ force = true)
    (stories : List Story) (hs : c.topStories = Except.ok stories)
    (hne : stories.filterMap (summarizeOne c) ≠ [])
    (hfail : ¬ ∃ pc bc ic,
      c.genPodcastText (stories.filterMap (summarizeOne c)) = Except.ok pc ∧
      c.genBlogText (stories.filterMap (summarizeOne c)) = Except.ok bc ∧
      c.genIntroText pc = Except.ok ic) :
    (processHackerNews c st force fa).1 = st ∧
    Ev.putContent ∉ (processHackerNews c st force fa).2 := by
  have hnotin : Ev.putContent ∉ (collectSummaries c stories).2 :=
    loopEvents_ne c stories Ev.putContent
      (fun s h1 => Ev.noConfusion h1) (fun h1 => Ev.noConfusion h1)
      (fun h1 => Ev.noConfusion h1)
  rw [processHackerNews_generate c st force fa hA]
  cases hp : c.genPodcastText (stories.filterMap (summarizeOne c)) with
  | error u =>
    have hres : generateBranch c st =
        (st, Ev.checkExists :: Ev.listItems ::
          ((collectSummaries c stories).2 ++ [Ev.genPodcast])) := by
      simp [generateBranch, hs, collectSummaries_fst c stories, hne, hp]
    rw [hres]
    refine ⟨rfl, ?_⟩
    intro h
    simp at h
    exact hnotin h
  | ok pc =>
    cases hb : c.genBlogText (stories.filterMap (summarizeOne c)) with
    | error u =>
      have hres : generateBranch c st =
          (st, Ev.checkExists :: Ev.listItems ::
            ((collectSummaries c stories).2 ++ [Ev.genPodcast, Ev.genBlog])) := by
        simp [generateBranch, hs, collectSummaries_fst c stories, hne, hp, hb]
      rw [hres]
      refine ⟨rfl, ?_⟩
      intro h
      simp at h
      exact hnotin h
    | ok bc =>
      cases hi : c.genIntroText pc with
      | error u =>
        have hres : generateBranch c st =
            (st, Ev.checkExists :: Ev.listItems ::
              ((collectSummaries c stories).2 ++ [Ev.genPodcast, Ev.genBlog, Ev.genIntro])) := by
          simp [generateBranch, hs, collectSummaries_fst c stories, hne, hp, hb, hi]
        rw [hres]
        refine ⟨rfl, ?_⟩
        intro h
        simp at h
        exact hnotin h
      | ok ic => exact absurd ⟨pc, bc, ic, hp, hb, hi⟩ hfail

/-- Witness for claim C6: with a concrete failing podcast generation the
run leaves the empty store empty and writes nothing. -/
theorem claim_C6_witness :
    (processHackerNews c6Collab ⟨none, none⟩ false false).1 = (⟨none, none⟩ : Store) ∧
    Ev.putContent ∉ (processHackerNews c6Collab ⟨none, none⟩ false false).2 := by
  refine claim_C6_text_failure_terminates c6Collab ⟨none, none⟩ false false (Or.inl rfl)
    [⟨[1], [], [], []⟩] rfl (by decide) ?_
  rintro ⟨pc, bc, ic, hp, hb, hi⟩
  exact Except.noConfusion hp

/-- Claim C7: the Synthesize stage always ends by re-serializing the full
artifact and issuing the store write, even when every audio segment
failed; the record it writes carries the intro, podcast and blog fields
(and the auxiliary audio list) unchanged from the record the stage
started with, so only the audio locator may differ; and whenever the
final upload succeeds the store's content object becomes exactly that
record. -/
theorem claim_C7_final_write (c : Collab) (cr : ContentRecord) (st : Store) :
    Ev.putContent ∈ (synthesizeStage c cr st).2.1 ∧
    (synthesizeStage c cr st).2.2.intro = cr.intro ∧
    (synthesizeStage c cr st).2.2.podcast = cr.podcast ∧
    (synthesizeStage c cr st).2.2.blog = cr.blog ∧
    (synthesizeStage c cr st).2.2.audioFiles = cr.audioFiles ∧
    (∀ loc, c.putContentB = Except.ok loc →
      (synthesizeStage c cr st).1.content = some ((synthesizeStage c cr st).2.2)) := by
  obtain ⟨f1, f2, f3, f4⟩ :=
    mergeAndPublish_fields c (synthTurns c (splitTurns cr.podcast)).1 cr st
  cases hb : c.putContentB with
  | error u =>
    refine ⟨?_, ?_, ?_, ?_, ?_, ?_⟩
    · simp [synthesizeStage, hb]
    · simpa [synthesizeStage, hb] using f1
    · simpa [synthesizeStage, hb] using f2
    · simpa [synthesizeStage, hb] using f3
    · simpa [synthesizeStage, hb] using f4
    · intro loc hl
      exact Except.noConfusion hl
  | ok loc0 =>
    refine ⟨?_, ?_, ?_, ?_, ?_, ?_⟩
    · simp [synthesizeStage, hb]
    · simpa [synthesizeStage, hb] using f1
    · simpa [synthesizeStage, hb] using f2
    · simpa [synthesizeStage, hb] using f3
    · simpa [synthesizeStage, hb] using f4
    · intro loc hl
      simp [synthesizeStage, hb]

/-- Witness for claim C7: with every segment failing the write still
happens, the uploaded record keeps the text fields of the input record,
and the store's content becomes that record. -/
theorem claim_C7_witness :
    Ev.putContent ∈ (synthesizeStage c7Collab c7Rec ⟨none, none⟩).2.1 ∧
    (synthesizeStage c7Collab c7Rec ⟨none, none⟩).2.2.intro = c7Rec.intro ∧
    (synthesizeStage c7Collab c7Rec ⟨none, none⟩).1.content =
      some ((synthesizeStage c7Collab c7Rec ⟨none, none⟩).2.2) := by
  have h := claim_C7_final_write c7Collab c7Rec ⟨none, none⟩
  exact ⟨h.1, h.2.1, h.2.2.2.2.2 [5] rfl⟩

/-- Claim C5: generateText makes at most 3 attempts, each under its own
two-minute per-attempt timeout; after the k-th failed or empty attempt
(k counted from 1) and before the next one it sleeps k times the fixed
2-second base delay, so the backoff delays are the prefix [2, 4] cut to
the number of retries actually taken; and when no attempt returns a
usable response the caller receives a terminal error. -/
theorem claim_C5_retry_policy (oracle : Nat → AttemptOutcome) :
    (attemptsOf (generateText oracle).2).length ≤ 3 ∧
    (∀ e ∈ attemptsOf (generateText oracle).2, e = GEv.attempt 120) ∧
    sleepsOf (generateText oracle).2 =
      [2, 4].take ((attemptsOf (generateText oracle).2).length - 1) ∧
    ((∀ i, i < 3 → ∀ content, oracle i ≠ AttemptOutcome.success content) →
      (generateText oracle).1 = Except.error ()) := by
  cases h0 : oracle 0 <;> cases h1 : oracle 1 <;> cases h2 : oracle 2 <;>
    refine ⟨?_, ?_, ?_, ?_⟩ <;>
    simp_all [generateText, genTextLoop, attemptsOf, sleepsOf] <;>
    first
      | exact ⟨0, by norm_num, _, h0⟩
      | exact ⟨1, by norm_num, _, h1⟩
      | exact ⟨2, by norm_num, _, h2⟩

/-- Witness for claim C5: an oracle that always fails exhausts the three
attempts and surfaces the terminal error. -/
theorem claim_C5_witness :
    (generateText (fun _ => AttemptOutcome.failure)).1 = Except.error () ∧
    (attemptsOf (generateText (fun _ => AttemptOutcome.failure)).2).length ≤ 3 := by
  have h := claim_C5_retry_policy (fun _ => AttemptOutcome.failure)
  exact ⟨h.2.2.2 (fun i hi content hc => AttemptOutcome.noConfusion hc), h.1⟩

/-- Claim C8 counterexample: the claim says fetchItemContent never
returns an error to the pipeline, whatever errors the underlying fetches
hit; but when the article fetch fails while reading the response body,
GetStoryContent returns that error (which is exactly why the pipeline
checks it and skips the item). -/
theorem claim_C8_counterexample :
    getStoryContent ⟨[], [], [], []⟩ 4096 ArticleOutcome.readFail (CommentsOutcome.okBody []) =
      Except.error () := rfl

/-- Claim C8 as amended: a transport-level failure of the HTTP request or
a non-OK status makes the affected part contribute empty text with no
error, and then GetStoryContent succeeds; but request-construction,
body-read and comment-extraction failures are returned as errors to the
caller. -/
theorem claim_C8_soft_fail (story : Story) (maxTokens : Nat)
    (ao : ArticleOutcome) (co : CommentsOutcome)
    (hao : ao = ArticleOutcome.doFail ∨ ao = ArticleOutcome.badStatus ∨
      ∃ b, ao = ArticleOutcome.okBody b)
    (hco : co = CommentsOutcome.doFail ∨ co = CommentsOutcome.badStatus ∨
      ∃ b, co = CommentsOutcome.okBody b) :
    fetchArticle ArticleOutcome.doFail = Except.ok [] ∧
    fetchArticle ArticleOutcome.badStatus = Except.ok [] ∧
    fetchComments CommentsOutcome.doFail = Except.ok [] ∧
    fetchComments CommentsOutcome.badStatus = Except.ok [] ∧
    ∃ t, getStoryContent story maxTokens ao co = Except.ok t := by
  refine ⟨rfl, rfl, rfl, rfl, ?_⟩
  rcases hao with rfl | rfl | ⟨a, rfl⟩ <;> rcases hco with rfl | rfl | ⟨b, rfl⟩ <;>
    exact ⟨_, rfl⟩

/-- Witness for claim C8: a concrete item whose article fetch dies at the
transport level while the comments succeed; the call returns ok. -/
theorem claim_C8_witness :
    ∃ t, getStoryContent ⟨[], [116], [], []⟩ 4096 ArticleOutcome.doFail
      (CommentsOutcome.okBody [99]) = Except.ok t :=
  (claim_C8_soft_fail ⟨[], [116], [], []⟩ 4096 ArticleOutcome.doFail
    (CommentsOutcome.okBody [99]) (Or.inl rfl) (Or.inr (Or.inr ⟨[99], rfl⟩))).2.2.2.2

/-- Claim C9 evaluated on the code (status: code_bug).  The HTTP handler
admits every well-formed request no matter the current value of the
shared isProcessing flag (it only writes the flag, it never consults it,
and there is no per-date lock anywhere before the Generate stage), so a
second concurrent call for the same date is also started; and under the
schedule where both runs perform their existence check on the empty
store before either writes, both runs issue the item-listing call, i.e.
both reach the Generate stage, contradicting the required per-date
serialization. -/
theorem claim_C9_no_per_date_serialization :
    (processHandler ⟨true⟩ true).2 = true ∧
    (processHandler (processHandler ⟨false⟩ true).1 true).2 = true ∧
    Ev.listItems ∈ (processHackerNews c9CollabA ⟨none, none⟩ false false).2 ∧
    Ev.listItems ∈ (processHackerNews c9CollabB ⟨none, none⟩ false false).2 := by
  refine ⟨rfl, rfl, ?_, ?_⟩ <;> decide
